import Mathlib

/-!
# Verification of Mantella's conversation-context and character-resolution layer

Shallow embedding of `src/conversation/context.py` and `src/games/gameable.py`
(class `gameable`), together with proofs about the behaviours the specification
describes: trust tiers, the event queue of `update_context`, the prompt
degradation ladder of `generate_system_message`, and the cascading character
lookup `find_character_info`.

Python strings are Lean `String`s, Python ints are Lean `Int`s (no overflow is
possible in the modelled code paths), Python lists are Lean `List`s.  Code that
can raise an exception is embedded in `PyResult`; the `raise` payload names
the Python exception that would be raised.
-/

namespace Mantella

/-- Helper: does `needle` occur as a contiguous substring of `hay`?
(Used only in statements, mirroring the informal "appears in the string".) -/
def strContains (hay needle : String) : Bool :=
  decide (needle.data <:+: hay.data)

/-- Python `s.lstrip('0')`: remove leading `'0'` characters. -/
def lstripZeros (s : String) : String :=
  ⟨s.data.dropWhile (fun c => c = '0')⟩

/-- Python `s[-n:]`: the last `n` characters (the whole string when `n ≥ len`). -/
def pyTakeRight (s : String) (n : Nat) : String :=
  ⟨s.data.drop (s.data.length - n)⟩

/-- Python `s.lower()` restricted to ASCII, which is all the code compares. -/
def pyLower (s : String) : String :=
  ⟨s.data.map Char.toLower⟩

/-- The outcome of a piece of Python code that may raise: either a value or
an exception (named by the string). -/
inductive PyResult (α : Type) where
  | ok (val : α)
  | raise (exc : String)
deriving Repr, DecidableEq

/-- Worker for `pySplit`: scan the character list left to right, splitting at
each (non-overlapping) occurrence of `sep`; `fuel` bounds the recursion and
any value `≥ length + 1` is enough. -/
def pySplitGo (sep : List Char) : Nat → List Char → List Char → List (List Char)
  | _, [], acc => [acc.reverse]
  | 0, l, acc => [acc.reverse ++ l]
  | Nat.succ fuel, c :: rest, acc =>
    if sep.isPrefixOf (c :: rest) then
      acc.reverse :: pySplitGo sep fuel (List.drop (sep.length - 1) rest) []
    else pySplitGo sep fuel rest (c :: acc)

/-- Python `s.split(sep)` for a non-empty separator. -/
def pySplit (s sep : String) : List String :=
  (pySplitGo sep.data (s.data.length + 1) s.data []).map (fun cs => String.mk cs)

/-- `Modelled from the spec:` `get_time_group` lives in `src/utils.py`, which is
not among the provided sources.  The spec describes it as "a coarse bucket:
e.g. morning/afternoon/evening/night derived from the numeric hour"
(0–23 scale).  The claims only depend on it being a function of the hour. -/
def get_time_group (h : Int) : String :=
  if h ≤ 4 then "at night"
  else if h ≤ 11 then "in the morning"
  else if h ≤ 17 then "in the afternoon"
  else if h ≤ 21 then "in the evening"
  else "at night"

/-- A character as `src/character_manager.py` exposes it to the context layer
(only the fields the embedded operations read). -/
structure Character where
  name : String
  bio : String
  relationship_rank : Int
  is_player_character : Bool
deriving Repr, DecidableEq

/-- `Modelled from the spec:` the roster class `Characters` of
`src/characters_manager.py` is not among the provided sources.  The spec calls
it "an ordered, name-keyed collection of Characters currently in a
conversation" which "tracks the most-recently-added character"; an empty
roster has no most-recently-added character, hence the `Option`. -/
structure Characters where
  chars : List Character
  last_added_character : Option Character
deriving Repr

/-- `Modelled from the spec:` `Characters.get_player_character` — the roster
holds "zero or one player character"; return the first (only) one if any. -/
def Characters.get_player_character (cs : Characters) : Option Character :=
  cs.chars.find? (fun c => c.is_player_character)

/-- `Modelled from the spec:` `Characters.get_all_names` — the names of the
roster members, in roster order. -/
def Characters.get_all_names (cs : Characters) : List String :=
  cs.chars.map (fun c => c.name)

/-- Python `len(self.__npcs_in_conversation)`: roster size. -/
def Characters.size (cs : Characters) : Nat := cs.chars.length

/-- The state of a `context` object (`src/conversation/context.py`), with the
injected collaborators (`is_prompt_too_long`, the rememberer, and the
conversation log) embedded as function-valued fields.  The token fraction is
a rational standing for the Python float `0.45`. -/
structure CtxState where
  prev_game_time : String × String
  npcs_in_conversation : Characters
  language : String
  is_prompt_too_long : String → ℚ → Bool
  custom_context_values : List (String × String)
  ingame_time : Int
  ingame_events : List String
  have_actors_changed : Bool
  location : String
  rememberer_prompt_text : List Character → String
  conversation_log_len : Character → Nat

/-- `context.TOKEN_LIMIT_PERCENT = 0.45`. -/
def TOKEN_LIMIT_PERCENT : ℚ := 45 / 100

/-- `context.get_context_ingame_events`. -/
def get_context_ingame_events (s : CtxState) : List String :=
  s.ingame_events

/-- `context.update_context(location, in_game_time, custom_ingame_events,
custom_context_values)`.  The Python method mutates both `self` and the
caller's `custom_ingame_events` list; the embedding returns the new state and
the caller's list as it stands after the call. -/
def update_context (s : CtxState) (location : String) (in_game_time : Int)
    (custom_ingame_events : List String)
    (custom_context_values : List (String × String)) : CtxState × List String :=
  -- self.__ingame_events.extend(custom_ingame_events)
  -- self.__custom_context_values = custom_context_values
  let s := { s with
    ingame_events := s.ingame_events ++ custom_ingame_events
    custom_context_values := custom_context_values }
  -- if location != self.__location: overwrite, then append to the caller's list
  let locChanged := location ≠ s.location
  let s := if locChanged then { s with location := location } else s
  let events :=
    if locChanged then
      custom_ingame_events ++ ["The location is now " ++ location ++ "."]
    else custom_ingame_events
  -- self.__ingame_time = in_game_time
  let s := { s with ingame_time := in_game_time }
  let current_time : String × String := (toString in_game_time, get_time_group in_game_time)
  if current_time ≠ s.prev_game_time then
    ({ s with prev_game_time := current_time },
      events ++ ["The time is " ++ current_time.1 ++ " " ++ current_time.2 ++ "."])
  else (s, events)

/-- `context.format_listing`. -/
def format_listing (listing : List String) : String :=
  match listing with
  | [] => ""
  | [single] => single
  | _ => String.intercalate ", " listing.dropLast ++ " and " ++ listing.getLastD ""

/-- `context.__get_trust`, with the collaborator call
`len(conversation_log.load_conversation_log(npc))` already evaluated to
`trust_level` (the count of past conversation-log entries). -/
def get_trust_of (relationship_rank : Int) (trust_level : Nat) : String :=
  if relationship_rank = 0 then
    if trust_level < 1 then "a stranger"
    else if trust_level < 10 then "an acquaintance"
    else if trust_level < 50 then "a friend"
    else "a close friend"
  else if relationship_rank = 4 then "a lover"
  else if relationship_rank > 0 then "a friend"
  else if relationship_rank < 0 then "an enemy"
  else "a stranger"

/-- `context.__get_trust(npc)` as the state reads it. -/
def get_trust (s : CtxState) (npc : Character) : String :=
  get_trust_of npc.relationship_rank (s.conversation_log_len npc)

/-- `context.get_characters_excluding_player` (the underlying list; the Python
method wraps it back into a `Characters`). -/
def get_characters_excluding_player (s : CtxState) : List Character :=
  s.npcs_in_conversation.chars.filter (fun c => ¬ c.is_player_character)

/-- `context.__get_trusts`. -/
def get_trusts (s : CtxState) : String :=
  format_listing ((get_characters_excluding_player s).map
    (fun npc => get_trust s npc ++ " to " ++ npc.name))

/-- `context.__get_character_names_as_text(should_include_player)`. -/
def get_character_names_as_text (s : CtxState) (should_include_player : Bool) : String :=
  if should_include_player then
    format_listing s.npcs_in_conversation.get_all_names
  else
    format_listing ((get_characters_excluding_player s).map (fun c => c.name))

/-- `context.__get_bios_text`. -/
def get_bios_text (s : CtxState) : String :=
  String.intercalate "\n" ((get_characters_excluding_player s).map
    (fun character =>
      if s.npcs_in_conversation.size = 1 then character.bio
      else character.name ++ ": " ++ character.bio))

/-! ## Prompt templates and `generate_system_message`

A prompt template (a Python format string) is embedded already parsed: a list
of literal chunks and replacement fields.  `Template.render` is Python
`str.format(**kwargs)` on such a string: every field is looked up in the
keyword environment, an unknown field raises `KeyError`.  `Template.source`
recovers the original format-string text (the braces are the characters
`\x7b` and `\x7d`). -/

/-- One chunk of a parsed Python format string. -/
inductive Chunk where
  | lit (s : String)
  | ph (field : String)
deriving Repr, DecidableEq

/-- A parsed Python format string. -/
def Template : Type := List Chunk

/-- The original text of the format string (placeholders re-wrapped in
braces): what Python's `prompt` variable holds. -/
def Template.source (t : Template) : String :=
  String.join (t.map (fun c =>
    match c with
    | Chunk.lit s => s
    | Chunk.ph f => "\x7b" ++ f ++ "\x7d"))

/-- The replacement fields occurring in a template. -/
def Template.fields (t : Template) : List String :=
  t.filterMap (fun c =>
    match c with
    | Chunk.lit _ => none
    | Chunk.ph f => some f)

/-- Python `prompt.format(**kwargs)`: substitute every field from the
environment; an unknown field raises `KeyError`. -/
def Template.render (t : Template) (env : String → Option String) :
    PyResult String :=
  match t with
  | [] => PyResult.ok ""
  | Chunk.lit s :: rest =>
    match Template.render rest env with
    | PyResult.ok r => PyResult.ok (s ++ r)
    | PyResult.raise e => PyResult.raise e
  | Chunk.ph f :: rest =>
    match env f with
    | none => PyResult.raise ("KeyError: " ++ f)
    | some v =>
      match Template.render rest env with
      | PyResult.ok r => PyResult.ok (v ++ r)
      | PyResult.raise e => PyResult.raise e

/-- The keyword environment of the single `prompt.format(...)` call in
`generate_system_message`, parameterised by the pair `content` drawn from
`removal_content` (`content.1` fills `bio`/`bios`, `content.2` fills
`conversation_summary`/`conversation_summaries`). -/
def format_env (s : CtxState) (player_name name names names_w_player trusts : String)
    (content : String × String) : String → Option String := fun field =>
  if field = "player_name" then some player_name
  else if field = "name" then some name
  else if field = "names" then some names
  else if field = "names_w_player" then some names_w_player
  else if field = "bio" then some content.1
  else if field = "bios" then some content.1
  else if field = "trust" then some trusts
  else if field = "location" then some s.location
  else if field = "time" then some (toString s.ingame_time)
  else if field = "time_group" then some (get_time_group s.ingame_time)
  else if field = "language" then some s.language
  else if field = "conversation_summary" then some content.2
  else if field = "conversation_summaries" then some content.2
  else none

/-- The `for content in removal_content` loop: render with each content pair in
turn; a rendering error propagates (the Python exception escapes the loop), a
rendering that is not too long is returned, and when every attempt is too
long the original format-string text `fallback` is returned. -/
def attempt_loop (s : CtxState) (t : Template)
    (env : String × String → String → Option String)
    (contents : List (String × String)) (fallback : String) :
    PyResult String :=
  match contents with
  | [] => PyResult.ok fallback
  | content :: rest =>
    match Template.render t (env content) with
    | PyResult.raise e => PyResult.raise e
    | PyResult.ok result =>
      if ¬ s.is_prompt_too_long result TOKEN_LIMIT_PERCENT then PyResult.ok result
      else attempt_loop s t env rest fallback

/-- `player_name`: the player's name, or `""` when no player is present. -/
def gen_player_name (s : CtxState) : String :=
  match s.npcs_in_conversation.get_player_character with
  | some p => p.name
  | none => ""

/-- The keyword environment of the `prompt.format(...)` call with all the
state-derived values filled in (the `name` component is only meaningful when
the roster has a last-added character; `generate_system_message` raises
before reaching the format call otherwise). -/
def gen_env (s : CtxState) (content : String × String) : String → Option String :=
  format_env s (gen_player_name s)
    (match s.npcs_in_conversation.last_added_character with
     | some c => c.name
     | none => "")
    (get_character_names_as_text s false)
    (get_character_names_as_text s true)
    (get_trusts s)
    content

/-- `removal_content = [(bios, conversation_summaries), (bios, ""), ("", "")]`. -/
def removal_content (s : CtxState) : List (String × String) :=
  [(get_bios_text s, s.rememberer_prompt_text (get_characters_excluding_player s)),
   (get_bios_text s, ""),
   ("", "")]

/-- `context.generate_system_message(prompt)`.  The local variable `name` is
assigned only under `if self.npcs_in_conversation.last_added_character:`; when
the roster has no last-added character the variable is unbound and the first
`prompt.format(..., name=name, ...)` raises `UnboundLocalError`. -/
def generate_system_message (s : CtxState) (prompt : Template) :
    PyResult String :=
  match s.npcs_in_conversation.last_added_character with
  | none => PyResult.raise "UnboundLocalError: name"
  | some _ =>
    attempt_loop s prompt (gen_env s) (removal_content s) prompt.source

/-- The replacement fields `generate_system_message`'s format call supplies. -/
def supported_fields : List String :=
  ["player_name", "name", "names", "names_w_player", "bio", "bios", "trust",
   "location", "time", "time_group", "language", "conversation_summary",
   "conversation_summaries"]

/-- The spec's "bios-stripped rendering" of a template: the bios placeholders
blanked, the conversation summaries retained.  (Stated from the spec's words
for comparison with the code; the code's degradation ladder never uses this
content pair.) -/
def bios_stripped_render (s : CtxState) (t : Template) : PyResult String :=
  Template.render t
    (gen_env s ("", s.rememberer_prompt_text (get_characters_excluding_player s)))

/-- A sequence of `update_context` calls, each with its own argument tuple
`(location, in_game_time, custom_ingame_events, custom_context_values)` —
the caller passing a fresh event list each tick. -/
def run_updates (s : CtxState) :
    List (String × Int × List String × List (String × String)) → CtxState
  | [] => s
  | (loc, t, evs, cvs) :: rest => run_updates (update_context s loc t evs cvs).1 rest

/-! ## `src/games/gameable.py`

The pandas `DataFrame` of characters is embedded as a `List CharacterRow` in
file order (boolean-mask `.loc` filtering preserves order, and
`.to_dict('records')[0]` is the first row of the filtered frame, raising
`IndexError` when the frame is empty).  A `NaN` cell is `Option.none`. -/

/-- One row of the character table; only the columns the embedded code reads.
`base_id` is `none` when the CSV cell is empty (pandas `NaN`). -/
structure CharacterRow where
  base_id : Option String
  name : String
  race : String
  voice_model : Option String
deriving Repr, DecidableEq

/-- The record returned by the abstract collaborator `load_unnamed_npc`. -/
structure NpcRecord where
  name : String
  bio : String
  voice_model : String
  advanced_voice_model : String
  voice_folder : String
deriving Repr, DecidableEq

/-- The `character_info` dict `find_character_info` returns: either a table
row or the synthesized generic-NPC record. -/
inductive CharRecord where
  | fromTable (row : CharacterRow)
  | synthesized (rec : NpcRecord)
deriving Repr, DecidableEq

/-- Python `str(x)` on a possibly-`NaN` cell: `str(nan) = "nan"`. -/
def strOfCell (x : Option String) : String :=
  match x with
  | none => "nan"
  | some s => s

/-- `remove_leading_zeros` (nested helper in `find_character_info`):
`''` on `NaN`, otherwise `str(hex_str).lstrip('0')`. -/
def remove_leading_zeros (hex_str : Option String) : String :=
  match hex_str with
  | none => ""
  | some s => lstripZeros s

/-- `full_id_search = character_id[-6:].lstrip('0')`. -/
def full_id_search (character_id : String) : String :=
  lstripZeros (pyTakeRight character_id 6)

/-- The boolean series `id_match`:
`df['base_id'].apply(remove_leading_zeros).str.lower() == full_id_search.lower()`. -/
def id_match_pred (character_id : String) (row : CharacterRow) : Bool :=
  pyLower (remove_leading_zeros row.base_id) = pyLower (full_id_search character_id)

/-- The boolean series `name_match`:
`df['name'].astype(str).str.lower() == character_name.lower()`. -/
def name_match_pred (character_name : String) (row : CharacterRow) : Bool :=
  pyLower row.name = pyLower character_name

/-- The boolean series `race_match` against the already-extracted
`character_race`. -/
def race_match_pred (character_race : String) (row : CharacterRow) : Bool :=
  pyLower row.race = pyLower character_race

/-- `character_race = race.split('<')[1].split('Race ')[0]`; `none` when the
input has no `'<'`, in which case the Python indexing raises `IndexError`. -/
def extract_race (race : String) : Option String :=
  match pySplit race "<" with
  | _ :: second :: _ => some ((pySplit second "Race ").headD "")
  | _ => none

/-- One row's test in the partial-ID series for a given `length`:
`remove_leading_zeros(str(x)[-length:]) if pd.notna(x) and len(str(x)) >= length
else remove_leading_zeros(str(x))`, lowered and compared with
`character_id[-length:].lstrip('0')` lowered. -/
def partial_match_at (character_id : String) (length : Nat) (row : CharacterRow) : Bool :=
  let partial_id_search := lstripZeros (pyTakeRight character_id length)
  let row_val :=
    if row.base_id.isSome ∧ (strOfCell row.base_id).length ≥ length then
      lstripZeros (pyTakeRight (strOfCell row.base_id) length)
    else lstripZeros (strOfCell row.base_id)
  pyLower row_val = pyLower partial_id_search

/-- The `for length in [5, 4, 3]` loop computing `partial_id_match`: the series
for the first length with any match; when no length matches anything, the
loop leaves the (all-false) length-3 series in place. -/
def partial_id_pred (table : List CharacterRow) (character_id : String)
    (row : CharacterRow) : Bool :=
  if table.any (partial_match_at character_id 5) then partial_match_at character_id 5 row
  else if table.any (partial_match_at character_id 4) then partial_match_at character_id 4 row
  else partial_match_at character_id 3 row

/-- `gameable.find_character_info(character_id, character_name, race, gender,
ingame_voice_model)`.  The nested `try/except IndexError` ladder is the chain
of `head?` matches; an empty filter result falls through to the next tier.
`race.split('<')[1]` is evaluated before the ladder and its `IndexError` is
not caught. -/
def find_character_info (table : List CharacterRow)
    (load_unnamed_npc : String → String → Int → String → NpcRecord)
    (character_id character_name race : String) (gender : Int)
    (ingame_voice_model : String) : PyResult (CharRecord × Bool) :=
  let id_match := id_match_pred character_id
  let name_match := name_match_pred character_name
  match extract_race race with
  | none => PyResult.raise "IndexError: list index out of range"
  | some character_race =>
    let race_match := race_match_pred character_race
    let partial_id_match := partial_id_pred table character_id
    match (table.filter (fun r => name_match r && id_match r && race_match r)).head? with
    | some character_info => PyResult.ok (CharRecord.fromTable character_info, false)
    | none =>
      match (table.filter (fun r => name_match r && id_match r)).head? with
      | some character_info => PyResult.ok (CharRecord.fromTable character_info, false)
      | none =>
        match (table.filter (fun r => name_match r && partial_id_match r && race_match r)).head? with
        | some character_info => PyResult.ok (CharRecord.fromTable character_info, false)
        | none =>
          match (table.filter (fun r => name_match r && partial_id_match r)).head? with
          | some character_info => PyResult.ok (CharRecord.fromTable character_info, false)
          | none =>
            match (table.filter (fun r => name_match r && race_match r)).head? with
            | some character_info => PyResult.ok (CharRecord.fromTable character_info, false)
            | none =>
              match (table.filter (fun r => name_match r)).head? with
              | some character_info => PyResult.ok (CharRecord.fromTable character_info, false)
              | none =>
                match (table.filter (fun r => id_match r)).head? with
                | some character_info => PyResult.ok (CharRecord.fromTable character_info, false)
                | none =>
                  PyResult.ok (CharRecord.synthesized
                    (load_unnamed_npc character_name character_race gender
                      ingame_voice_model), true)

/-- The ordered cascade tiers of `find_character_info`, as predicates on rows.
Tier 7 is the plain `id_match` series (the full 6-character ID). -/
def tier_preds (table : List CharacterRow) (character_id character_name
    character_race : String) : List (CharacterRow → Bool) :=
  let id_match := id_match_pred character_id
  let name_match := name_match_pred character_name
  let race_match := race_match_pred character_race
  let partial_id_match := partial_id_pred table character_id
  [fun r => name_match r && id_match r && race_match r,
   fun r => name_match r && id_match r,
   fun r => name_match r && partial_id_match r && race_match r,
   fun r => name_match r && partial_id_match r,
   fun r => name_match r && race_match r,
   fun r => name_match r,
   fun r => id_match r]

/-- First row of the first tier whose filter is non-empty. -/
def first_tier_match (table : List CharacterRow) :
    List (CharacterRow → Bool) → Option CharacterRow
  | [] => none
  | p :: rest =>
    match (table.filter p).head? with
    | some r => some r
    | none => first_tier_match table rest

/-- The observable outcome of `gameable.__init__` as far as the character
table is concerned.  `read_result` is what `__get_character_df`'s
`pd.read_csv` produced: `none` when reading/parsing raised.  On failure the
`except:` arm logs an operator-facing error and blocks on
`input("Press Enter to exit.")` — and then `__init__` simply continues with
no `self.__character_df` attribute set; there is no `sys.exit` or re-raise. -/
structure InitOutcome where
  character_df : Option (List CharacterRow)
  logged_error : Bool
  blocking_prompt_shown : Bool
  process_terminated : Bool
deriving Repr, DecidableEq

/-- `gameable.__get_character_df` applied to a successfully parsed frame:
`character_df.loc[character_df['voice_model'].notna()]`. -/
def get_character_df (raw : List CharacterRow) : List CharacterRow :=
  raw.filter (fun r => r.voice_model.isSome)

/-- `gameable.__init__`'s character-table handling. -/
def gameable_init (read_result : Option (List CharacterRow)) : InitOutcome :=
  match read_result with
  | some raw =>
    { character_df := some (get_character_df raw)
      logged_error := false
      blocking_prompt_shown := false
      process_terminated := false }
  | none =>
    { character_df := none
      logged_error := true
      blocking_prompt_shown := true
      process_terminated := false }

/-! ## Concrete fixtures (used by witnesses and counterexamples) -/

/-- A budget predicate that accepts everything. -/
def noBudget : String → ℚ → Bool := fun _ _ => false

/-- A context state with an empty roster, as right after construction for a
Skyrim game (`location = "Skyrim"`, `ingame_time = 12`), with the previous
game time already recorded as noon. -/
def baseState : CtxState where
  prev_game_time := ("12", get_time_group 12)
  npcs_in_conversation := { chars := [], last_added_character := none }
  language := "en"
  is_prompt_too_long := noBudget
  custom_context_values := []
  ingame_time := 12
  ingame_events := []
  have_actors_changed := false
  location := "Skyrim"
  rememberer_prompt_text := fun _ => ""
  conversation_log_len := fun _ => 0

/-- `baseState` with the stored location `"Riften"` instead of `"Skyrim"`. -/
def riftenState : CtxState := { baseState with location := "Riften" }

/-- An NPC fixture. -/
def alice : Character :=
  { name := "Alice", bio := "A mage.", relationship_rank := 0,
    is_player_character := false }

/-- A player-character fixture. -/
def playerChar : Character :=
  { name := "Dov", bio := "", relationship_rank := 0,
    is_player_character := true }

/-- A state whose roster holds the player and `alice` (last added). -/
def convState : CtxState :=
  { baseState with
    npcs_in_conversation :=
      { chars := [playerChar, alice], last_added_character := some alice }
    rememberer_prompt_text := fun _ => "Summary." }

/-- An NPC with a recognisable bio, alone in the roster. -/
def bob : Character :=
  { name := "Bob", bio := "BIOTEXT", relationship_rank := 0,
    is_player_character := false }

/-- Roster `[bob]`, summaries `"SUM"`, and a budget predicate rejecting any
rendering that still contains the bio text. -/
def c5State : CtxState :=
  { baseState with
    npcs_in_conversation := { chars := [bob], last_added_character := some bob }
    rememberer_prompt_text := fun _ => "SUM"
    is_prompt_too_long := fun s _ => strContains s "BIOTEXT" }

/-- Like `c5State` but the budget predicate rejects renderings containing the
summary text instead. -/
def c5wState : CtxState :=
  { c5State with is_prompt_too_long := fun s _ => strContains s "SUM" }

/-- `"Hello"`: a template with no replacement field. -/
def tplHello : Template := [Chunk.lit "Hello"]

/-- `"Hi {name}"`. -/
def tplName : Template := [Chunk.lit "Hi ", Chunk.ph "name"]

/-- `"{bios} | {conversation_summaries}"`. -/
def tplBioSum : Template :=
  [Chunk.ph "bios", Chunk.lit " | ", Chunk.ph "conversation_summaries"]

/-- A concrete `load_unnamed_npc` collaborator. -/
def sampleUnnamed : String → String → Int → String → NpcRecord :=
  fun n r _ v =>
    { name := n, bio := "A " ++ r ++ ".", voice_model := v,
      advanced_voice_model := v, voice_folder := v }

/-- A table row whose `base_id` matches queries only at partial length 5. -/
def partialRow : CharacterRow :=
  { base_id := some "00345", name := "Bob", race := "Nord",
    voice_model := some "MaleNord" }

/-- The spec's example row: Lydia the Nord. -/
def lydiaRow : CharacterRow :=
  { base_id := some "00012AB", name := "Lydia", race := "Nord",
    voice_model := some "FemaleEvenToned" }

/-! ## Theorems -/

/-- C8: the trust tier is a function of (relationship_rank, prior-exchange
count) with exact integer cutoffs: for rank 0 it is stranger when count < 1,
acquaintance for 1–9, friend for 10–49, close friend for ≥ 50; for rank 1..3
it is friend regardless of count; rank 4 is lover; every negative rank is
enemy. -/
theorem trust_tier_cutoffs (rank : Int) (count : Nat) :
    (rank = 0 → count < 1 → get_trust_of rank count = "a stranger") ∧
    (rank = 0 → 1 ≤ count → count ≤ 9 → get_trust_of rank count = "an acquaintance") ∧
    (rank = 0 → 10 ≤ count → count ≤ 49 → get_trust_of rank count = "a friend") ∧
    (rank = 0 → 50 ≤ count → get_trust_of rank count = "a close friend") ∧
    (1 ≤ rank → rank ≤ 3 → get_trust_of rank count = "a friend") ∧
    (rank = 4 → get_trust_of rank count = "a lover") ∧
    (rank < 0 → get_trust_of rank count = "an enemy") := by
  unfold get_trust_of
  refine ⟨?_, ?_, ?_, ?_, ?_, ?_, ?_⟩ <;> intros <;> split_ifs <;>
    first | rfl | omega

/-- Witness for C8 at the spec's own sample points. -/
theorem trust_tier_cutoffs_witness :
    get_trust_of 0 0 = "a stranger" ∧
    get_trust_of 0 5 = "an acquaintance" ∧
    get_trust_of 0 10 = "a friend" ∧
    get_trust_of 0 50 = "a close friend" ∧
    get_trust_of 2 77 = "a friend" ∧
    get_trust_of 4 1 = "a lover" ∧
    get_trust_of (-1) 3 = "an enemy" :=
  ⟨(trust_tier_cutoffs 0 0).1 rfl (by decide),
   (trust_tier_cutoffs 0 5).2.1 rfl (by decide) (by decide),
   (trust_tier_cutoffs 0 10).2.2.1 rfl (by decide) (by decide),
   (trust_tier_cutoffs 0 50).2.2.2.1 rfl (by decide),
   (trust_tier_cutoffs 2 77).2.2.2.2.1 (by decide) (by decide),
   (trust_tier_cutoffs 4 1).2.2.2.2.2.1 rfl,
   (trust_tier_cutoffs (-1) 3).2.2.2.2.2.2 (by decide)⟩

/-- C3 (code bug): rows with an empty `voice_model` are indeed dropped from
the loaded table, and on a failed read the `except:` arm logs the diagnostic
and blocks on `input("Press Enter to exit.")` — but `__init__` then simply
continues; the process is **not** terminated (there is no `sys.exit`,
`raise`, or return-of-control that stops startup). -/
theorem gameable_init_continues_after_failed_load (raw : List CharacterRow) :
    (gameable_init (some raw)).character_df
      = some (raw.filter (fun r => r.voice_model.isSome)) ∧
    (gameable_init (some raw)).process_terminated = false ∧
    (gameable_init none).logged_error = true ∧
    (gameable_init none).blocking_prompt_shown = true ∧
    (gameable_init none).process_terminated = false :=
  ⟨rfl, rfl, rfl, rfl, rfl⟩

/-- Helper: the internal event queue gains exactly the caller-supplied list. -/
lemma update_context_fst_ingame_events (s : CtxState) (loc : String) (t : Int)
    (evs : List String) (cvs : List (String × String)) :
    (update_context s loc t evs cvs).1.ingame_events = s.ingame_events ++ evs := by
  unfold update_context
  by_cases hl : loc = s.location <;>
    by_cases ht : ((toString t, get_time_group t) : String × String) = s.prev_game_time <;>
      simp [hl, ht]

/-- Helper: the caller's list comes back with its own entries first, the
generated location/time events appended after them. -/
lemma update_context_snd_prefix (s : CtxState) (loc : String) (t : Int)
    (evs : List String) (cvs : List (String × String)) :
    ∃ gen, (update_context s loc t evs cvs).2 = evs ++ gen := by
  unfold update_context
  by_cases hl : loc = s.location <;>
    by_cases ht : ((toString t, get_time_group t) : String × String) = s.prev_game_time <;>
      simp [hl, ht]

/-- C10: `update_context` copies the caller's event list into the internal
queue first and appends the generated location/time events only to the
caller's own list, so the queue gains exactly the caller-supplied entries;
consequently, over any run of calls each passing a fresh list,
`get_context_ingame_events` holds exactly the initial queue plus the
caller-supplied entries — never the generated location/time events. -/
theorem update_context_frame (s : CtxState) (loc : String) (t : Int)
    (evs : List String) (cvs : List (String × String))
    (calls : List (String × Int × List String × List (String × String))) :
    (update_context s loc t evs cvs).1.ingame_events = s.ingame_events ++ evs ∧
    (∃ gen, (update_context s loc t evs cvs).2 = evs ++ gen) ∧
    get_context_ingame_events (run_updates s calls)
      = s.ingame_events ++ (calls.map (fun c => c.2.2.1)).flatten := by
  refine ⟨update_context_fst_ingame_events s loc t evs cvs,
    update_context_snd_prefix s loc t evs cvs, ?_⟩
  induction calls generalizing s with
  | nil => simp [run_updates, get_context_ingame_events]
  | cons c rest ih =>
    obtain ⟨loc', t', evs', cvs'⟩ := c
    simp only [run_updates, List.map_cons, List.flatten_cons]
    rw [ih, update_context_fst_ingame_events]
    simp [List.append_assoc]

/-- C9: calling `update_context` twice in a row with the same location and
in-game time appends zero location/time events on the second call; and in
general a time-change event is appended only when the pair
`(str(hour), time-group)` differs from the pair recorded at the previous
call. -/
theorem update_context_no_repeat_events (s : CtxState) (loc : String) (t : Int)
    (evs1 evs2 : List String) (cvs1 cvs2 : List (String × String)) :
    (update_context (update_context s loc t evs1 cvs1).1 loc t evs2 cvs2).2 = evs2 ∧
    ((toString t, get_time_group t) = s.prev_game_time →
      (update_context s loc t evs1 cvs1).2 =
        evs1 ++ (if loc = s.location then []
          else ["The location is now " ++ loc ++ "."])) := by
  constructor
  · unfold update_context
    by_cases hl : loc = s.location <;>
      by_cases ht : ((toString t, get_time_group t) : String × String) = s.prev_game_time <;>
        simp [hl, ht]
  · intro h
    unfold update_context
    by_cases hl : loc = s.location <;> simp [hl, h]

/-- Witness for C9: a repeated noon-in-Skyrim update appends nothing. -/
theorem update_context_no_repeat_events_witness :
    (update_context (update_context baseState "Skyrim" 12 ["a"] []).1
      "Skyrim" 12 ["b"] []).2 = ["b"] ∧
    (update_context baseState "Skyrim" 12 ["a"] []).2 =
      ["a"] ++ (if ("Skyrim" : String) = baseState.location then []
        else ["The location is now Skyrim."]) :=
  ⟨(update_context_no_repeat_events baseState "Skyrim" 12 ["a"] ["b"] [] []).1,
   (update_context_no_repeat_events baseState "Skyrim" 12 ["a"] ["b"] [] []).2 rfl⟩

/-- C4 (corrected): when the location argument differs from the stored one,
`update_context` overwrites the stored location and then appends the event
`"The location is now {location}."` to the caller's list, directly after the
caller's own entries; the event names the new location. -/
theorem update_context_location_event (s : CtxState) (loc : String) (t : Int)
    (evs : List String) (cvs : List (String × String)) (h : loc ≠ s.location) :
    (update_context s loc t evs cvs).1.location = loc ∧
    ∃ tail, (update_context s loc t evs cvs).2
        = evs ++ ["The location is now " ++ loc ++ "."] ++ tail := by
  unfold update_context
  by_cases ht : ((toString t, get_time_group t) : String × String) = s.prev_game_time <;>
    simp [h, ht]

/-- Witness for C4's amended statement. -/
theorem update_context_location_event_witness :
    (update_context baseState "Whiterun" 12 [] []).1.location = "Whiterun" ∧
    ∃ tail, (update_context baseState "Whiterun" 12 [] []).2
        = [] ++ ["The location is now Whiterun."] ++ tail :=
  update_context_location_event baseState "Whiterun" 12 [] [] (by decide)

/-- C4 (counterexample): the appended location event contains the **new**
location only.  The old location (`"Skyrim"`) does not occur in the appended
string, and two states differing only in their old location produce the very
same appended event — the old value is neither readable in nor recoverable
from it. -/
theorem update_context_event_lacks_old_location :
    (update_context baseState "Whiterun" 12 [] []).2
      = ["The location is now Whiterun."] ∧
    (update_context riftenState "Whiterun" 12 [] []).2
      = (update_context baseState "Whiterun" 12 [] []).2 ∧
    strContains "The location is now Whiterun." "Skyrim" = false := by
  refine ⟨by decide, by decide, by decide⟩

/-- Helper: once the race descriptor parses, `find_character_info` is exactly
the first-match-wins cascade over `tier_preds`, with the synthetic fallback
when every tier misses. -/
lemma find_eq_cascade (table : List CharacterRow)
    (loadU : String → String → Int → String → NpcRecord)
    (cid cname race : String) (g : Int) (v : String) (cr : String)
    (h : extract_race race = some cr) :
    find_character_info table loadU cid cname race g v =
      match first_tier_match table (tier_preds table cid cname cr) with
      | some row => PyResult.ok (CharRecord.fromTable row, false)
      | none => PyResult.ok (CharRecord.synthesized (loadU cname cr g v), true) := by
  unfold find_character_info
  rw [h]
  unfold tier_preds
  simp only [first_tier_match]
  cases (table.filter fun r =>
      name_match_pred cname r && id_match_pred cid r && race_match_pred cr r).head? with
  | some row => rfl
  | none =>
  cases (table.filter fun r => name_match_pred cname r && id_match_pred cid r).head? with
  | some row => rfl
  | none =>
  cases (table.filter fun r =>
      name_match_pred cname r && partial_id_pred table cid r && race_match_pred cr r).head? with
  | some row => rfl
  | none =>
  cases (table.filter fun r => name_match_pred cname r && partial_id_pred table cid r).head? with
  | some row => rfl
  | none =>
  cases (table.filter fun r => name_match_pred cname r && race_match_pred cr r).head? with
  | some row => rfl
  | none =>
  cases (table.filter fun r => name_match_pred cname r).head? with
  | some row => rfl
  | none =>
  cases (table.filter fun r => id_match_pred cid r).head? with
  | some row => rfl
  | none => rfl

/-- C2 (corrected): provided the race descriptor contains the `<` delimiter,
`find_character_info` never raises: it returns `PyResult.ok`, the generic flag
is `true` exactly when every cascade tier misses, and in that case the
returned record is the one synthesized by `load_unnamed_npc`. -/
theorem find_character_info_no_raise (table : List CharacterRow)
    (loadU : String → String → Int → String → NpcRecord)
    (cid cname race : String) (g : Int) (v : String) (cr : String)
    (h : extract_race race = some cr) :
    (∃ res, find_character_info table loadU cid cname race g v = PyResult.ok res) ∧
    (∀ rec isGen,
      find_character_info table loadU cid cname race g v = PyResult.ok (rec, isGen) →
      (isGen = true ↔ first_tier_match table (tier_preds table cid cname cr) = none) ∧
      (isGen = true → rec = CharRecord.synthesized (loadU cname cr g v))) := by
  have hc := find_eq_cascade table loadU cid cname race g v cr h
  cases e : first_tier_match table (tier_preds table cid cname cr) with
  | none =>
    rw [e] at hc
    refine ⟨⟨_, hc⟩, ?_⟩
    intro rec isGen hok
    rw [hc] at hok
    simp only [PyResult.ok.injEq, Prod.mk.injEq] at hok
    obtain ⟨h1, h2⟩ := hok
    subst h1; subst h2
    exact ⟨by simp, fun _ => rfl⟩
  | some row =>
    rw [e] at hc
    refine ⟨⟨_, hc⟩, ?_⟩
    intro rec isGen hok
    rw [hc] at hok
    simp only [PyResult.ok.injEq, Prod.mk.injEq] at hok
    obtain ⟨h1, h2⟩ := hok
    subst h1; subst h2
    simp

/-- Witness for C2's amended statement: an empty table exhausts the cascade
and the call still returns `PyResult.ok`. -/
theorem find_character_info_no_raise_witness :
    ∃ res, find_character_info [] sampleUnnamed "0012AB" "NoSuch" "<OrcRace (0)>" 0 "v"
      = PyResult.ok res :=
  (find_character_info_no_raise [] sampleUnnamed "0012AB" "NoSuch" "<OrcRace (0)>"
    0 "v" "Orc" rfl).1

/-- C2 (counterexample): a race string without the `<` delimiter makes
`race.split('<')[1]` raise `IndexError` before any cascade tier runs — the
call does not return a record at all. -/
theorem find_character_info_raises_without_race_delimiter :
    find_character_info [lydiaRow] sampleUnnamed "0012AB" "Lydia" "Nord" 0 "FemaleEvenToned"
      = PyResult.raise "IndexError: list index out of range" := rfl

/-- C6 (amended): `find_character_info` is the fixed cascade (1) name+id+race,
(2) name+id, (3) name+partial+race, (4) name+partial, (5) name+race,
(6) name, (7) **full** id only — first row of the first tier with any match,
else the synthesized generic record. -/
theorem find_character_info_cascade_order (table : List CharacterRow)
    (loadU : String → String → Int → String → NpcRecord)
    (cid cname race : String) (g : Int) (v : String) (cr : String)
    (h : extract_race race = some cr) :
    find_character_info table loadU cid cname race g v =
      match first_tier_match table (tier_preds table cid cname cr) with
      | some row => PyResult.ok (CharRecord.fromTable row, false)
      | none => PyResult.ok (CharRecord.synthesized (loadU cname cr g v), true) :=
  find_eq_cascade table loadU cid cname race g v cr h

/-- Witness for C6's amended statement: the spec's own example row resolves
through the cascade (here tier 1 hits: name, full id and race all match). -/
theorem find_character_info_cascade_order_witness :
    find_character_info [lydiaRow] sampleUnnamed "12AB" "Lydia" "<NordRace (0x13746)>" 0 "v"
      = PyResult.ok (CharRecord.fromTable lydiaRow, false) := by
  rw [find_character_info_cascade_order [lydiaRow] sampleUnnamed "12AB" "Lydia"
    "<NordRace (0x13746)>" 0 "v" "Nord" rfl]
  decide

/-- C6 (counterexample): a row that matches the query id at partial length 5
(but not at the full 6-character length), with name and race both
mismatching.  Every tier 1–6 misses; a tier 7 of "full id **or** the first
successful partial length" would return the row, but the code's tier 7 only
consults the full-id series, so the call falls through to the synthetic
generic record. -/
theorem find_character_info_tier7_full_id_only :
    partial_id_pred [partialRow] "A00345" partialRow = true ∧
    id_match_pred "A00345" partialRow = false ∧
    name_match_pred "X" partialRow = false ∧
    race_match_pred "Imperial" partialRow = false ∧
    find_character_info [partialRow] sampleUnnamed "A00345" "X" "<ImperialRace (0)>" 0 "v"
      = PyResult.ok (CharRecord.synthesized (sampleUnnamed "X" "Imperial" 0 "v"), true) := by
  refine ⟨by decide, by decide, by decide, by decide, by decide⟩

/-- Helper: the format environment is defined on every supported field. -/
lemma format_env_isSome (s : CtxState) (pn n ns nwp tr : String)
    (content : String × String) (f : String) (hf : f ∈ supported_fields) :
    (format_env s pn n ns nwp tr content f).isSome = true := by
  simp only [supported_fields, List.mem_cons, List.not_mem_nil, or_false] at hf
  rcases hf with rfl | rfl | rfl | rfl | rfl | rfl | rfl | rfl | rfl | rfl | rfl | rfl | rfl <;>
    rfl

/-- Helper: rendering succeeds when every field of the template is defined in
the environment. -/
lemma render_ok_of_fields (t : Template) (env : String → Option String)
    (h : ∀ f ∈ Template.fields t, (env f).isSome = true) :
    ∃ r, Template.render t env = PyResult.ok r := by
  induction t with
  | nil => exact ⟨"", rfl⟩
  | cons c rest ih =>
    cases c with
    | lit str =>
      obtain ⟨r, hr⟩ := ih (fun f hf => h f (by
        simpa [Template.fields, List.filterMap_cons] using hf))
      exact ⟨str ++ r, by simp [Template.render, hr]⟩
    | ph f =>
      have hf : (env f).isSome = true := h f (by
        simp [Template.fields, List.filterMap_cons])
      obtain ⟨v, hv⟩ := Option.isSome_iff_exists.mp hf
      obtain ⟨r, hr⟩ := ih (fun g hg => h g (by
        simpa [Template.fields, List.filterMap_cons] using Or.inr hg))
      exact ⟨v ++ r, by simp [Template.render, hv, hr]⟩

/-- Helper: when every attempt renders, the loop returns `ok` (a passing
rendering or, after the last attempt, the fallback). -/
lemma attempt_loop_ok (s : CtxState) (t : Template)
    (env : String × String → String → Option String)
    (contents : List (String × String)) (fallback : String)
    (h : ∀ c ∈ contents, ∃ r, Template.render t (env c) = PyResult.ok r) :
    ∃ out, attempt_loop s t env contents fallback = PyResult.ok out := by
  induction contents with
  | nil => exact ⟨fallback, rfl⟩
  | cons c rest ih =>
    obtain ⟨r, hr⟩ := h c (List.mem_cons_self c rest)
    by_cases hb : s.is_prompt_too_long r TOKEN_LIMIT_PERCENT = true
    · obtain ⟨out, hout⟩ := ih (fun c' hc' => h c' (List.mem_cons_of_mem c hc'))
      exact ⟨out, by simp [attempt_loop, hr, hb, hout]⟩
    · exact ⟨r, by simp [attempt_loop, hr, hb]⟩

/-- Helper: when every attempt renders but every rendering is too long, the
loop returns the fallback. -/
lemma attempt_loop_all_too_long (s : CtxState) (t : Template)
    (env : String × String → String → Option String)
    (contents : List (String × String)) (fallback : String)
    (hok : ∀ c ∈ contents, ∃ r, Template.render t (env c) = PyResult.ok r)
    (hlong : ∀ c ∈ contents, ∀ r, Template.render t (env c) = PyResult.ok r →
      s.is_prompt_too_long r TOKEN_LIMIT_PERCENT = true) :
    attempt_loop s t env contents fallback = PyResult.ok fallback := by
  induction contents with
  | nil => rfl
  | cons c rest ih =>
    obtain ⟨r, hr⟩ := hok c (List.mem_cons_self c rest)
    have hl := hlong c (List.mem_cons_self c rest) r hr
    have := ih (fun c' hc' => hok c' (List.mem_cons_of_mem c hc'))
      (fun c' hc' => hlong c' (List.mem_cons_of_mem c hc'))
    simp [attempt_loop, hr, hl, this]

/-- C1 (amended): whenever the roster has a last-added character and every
replacement field of the template is among the supported placeholder names,
`generate_system_message` returns some string; and when every rendering
attempt fails the injected too-long predicate it returns the original
un-filled template text unchanged. -/
theorem generate_system_message_total (s : CtxState) (t : Template) (lac : Character)
    (hlac : s.npcs_in_conversation.last_added_character = some lac)
    (hfields : ∀ f ∈ Template.fields t, f ∈ supported_fields) :
    (∃ out, generate_system_message s t = PyResult.ok out) ∧
    ((∀ content ∈ removal_content s, ∀ r,
        Template.render t (gen_env s content) = PyResult.ok r →
        s.is_prompt_too_long r TOKEN_LIMIT_PERCENT = true) →
      generate_system_message s t = PyResult.ok (Template.source t)) := by
  have hok : ∀ c ∈ removal_content s,
      ∃ r, Template.render t (gen_env s c) = PyResult.ok r := by
    intro c _
    exact render_ok_of_fields t (gen_env s c)
      (fun f hf => format_env_isSome s _ _ _ _ _ c f (hfields f hf))
  constructor
  · simp only [generate_system_message, hlac]
    exact attempt_loop_ok s t (gen_env s) (removal_content s) (Template.source t) hok
  · intro hall
    simp only [generate_system_message, hlac]
    exact attempt_loop_all_too_long s t (gen_env s) (removal_content s)
      (Template.source t) hok hall

/-- Witness for C1's amended statement. -/
theorem generate_system_message_total_witness :
    ∃ out, generate_system_message convState tplName = PyResult.ok out :=
  (generate_system_message_total convState tplName alice rfl (by decide)).1

/-- C1 (counterexample): with no last-added character (here: an empty roster)
the Python local `name` is never assigned, and the very first
`prompt.format(..., name=name, ...)` raises `UnboundLocalError` — even for a
trivial template; the function does not return a string. -/
theorem generate_system_message_unbound_name :
    generate_system_message baseState tplHello
      = PyResult.raise "UnboundLocalError: name" := rfl

/-- C7: `generate_system_message` renders with optional content reduced in
the fixed order (1) bios + summaries, (2) bios only, (3) neither; after each
attempt the rendering is tested with the injected predicate at the fixed
fraction `TOKEN_LIMIT_PERCENT`, the first passing rendering is returned, and
when all three fail the un-filled template text is returned. -/
theorem generate_system_message_attempt_order (s : CtxState) (t : Template)
    (lac : Character)
    (hlac : s.npcs_in_conversation.last_added_character = some lac) :
    (removal_content s =
      [(get_bios_text s, s.rememberer_prompt_text (get_characters_excluding_player s)),
       (get_bios_text s, ""), ("", "")]) ∧
    (∀ r1, Template.render t (gen_env s (get_bios_text s,
        s.rememberer_prompt_text (get_characters_excluding_player s))) = PyResult.ok r1 →
      s.is_prompt_too_long r1 TOKEN_LIMIT_PERCENT = false →
      generate_system_message s t = PyResult.ok r1) ∧
    (∀ r1 r2, Template.render t (gen_env s (get_bios_text s,
        s.rememberer_prompt_text (get_characters_excluding_player s))) = PyResult.ok r1 →
      s.is_prompt_too_long r1 TOKEN_LIMIT_PERCENT = true →
      Template.render t (gen_env s (get_bios_text s, "")) = PyResult.ok r2 →
      s.is_prompt_too_long r2 TOKEN_LIMIT_PERCENT = false →
      generate_system_message s t = PyResult.ok r2) ∧
    (∀ r1 r2 r3, Template.render t (gen_env s (get_bios_text s,
        s.rememberer_prompt_text (get_characters_excluding_player s))) = PyResult.ok r1 →
      s.is_prompt_too_long r1 TOKEN_LIMIT_PERCENT = true →
      Template.render t (gen_env s (get_bios_text s, "")) = PyResult.ok r2 →
      s.is_prompt_too_long r2 TOKEN_LIMIT_PERCENT = true →
      Template.render t (gen_env s ("", "")) = PyResult.ok r3 →
      s.is_prompt_too_long r3 TOKEN_LIMIT_PERCENT = false →
      generate_system_message s t = PyResult.ok r3) ∧
    (∀ r1 r2 r3, Template.render t (gen_env s (get_bios_text s,
        s.rememberer_prompt_text (get_characters_excluding_player s))) = PyResult.ok r1 →
      s.is_prompt_too_long r1 TOKEN_LIMIT_PERCENT = true →
      Template.render t (gen_env s (get_bios_text s, "")) = PyResult.ok r2 →
      s.is_prompt_too_long r2 TOKEN_LIMIT_PERCENT = true →
      Template.render t (gen_env s ("", "")) = PyResult.ok r3 →
      s.is_prompt_too_long r3 TOKEN_LIMIT_PERCENT = true →
      generate_system_message s t = PyResult.ok (Template.source t)) := by
  refine ⟨rfl, ?_, ?_, ?_, ?_⟩
  · intro r1 h1 hp1
    simp [generate_system_message, hlac, removal_content, attempt_loop, h1, hp1]
  · intro r1 r2 h1 hp1 h2 hp2
    simp [generate_system_message, hlac, removal_content, attempt_loop, h1, hp1, h2, hp2]
  · intro r1 r2 r3 h1 hp1 h2 hp2 h3 hp3
    simp [generate_system_message, hlac, removal_content, attempt_loop,
      h1, hp1, h2, hp2, h3, hp3]
  · intro r1 r2 r3 h1 hp1 h2 hp2 h3 hp3
    simp [generate_system_message, hlac, removal_content, attempt_loop,
      h1, hp1, h2, hp2, h3, hp3]

/-- Witness for C7: with an always-passing budget the very first (full)
rendering is returned. -/
theorem generate_system_message_attempt_order_witness :
    generate_system_message convState tplName = PyResult.ok "Hi Alice" :=
  (generate_system_message_attempt_order convState tplName alice rfl).2.1
    "Hi Alice" (by decide) (by decide)

/-- C5 (amended): when the fully filled rendering fails the injected budget
predicate but the summaries-stripped rendering (bios kept, summaries
dropped — the code's second ladder step) passes it,
`generate_system_message` returns exactly that summaries-stripped
rendering. -/
theorem generate_system_message_summaries_stripped (s : CtxState) (t : Template)
    (lac : Character)
    (hlac : s.npcs_in_conversation.last_added_character = some lac)
    (r1 r2 : String)
    (h1 : Template.render t (gen_env s (get_bios_text s,
      s.rememberer_prompt_text (get_characters_excluding_player s))) = PyResult.ok r1)
    (hfail : s.is_prompt_too_long r1 TOKEN_LIMIT_PERCENT = true)
    (h2 : Template.render t (gen_env s (get_bios_text s, "")) = PyResult.ok r2)
    (hpass : s.is_prompt_too_long r2 TOKEN_LIMIT_PERCENT = false) :
    generate_system_message s t = PyResult.ok r2 := by
  simp [generate_system_message, hlac, removal_content, attempt_loop,
    h1, hfail, h2, hpass]

/-- Witness for C5's amended statement. -/
theorem generate_system_message_summaries_stripped_witness :
    generate_system_message c5wState tplBioSum = PyResult.ok "BIOTEXT | " :=
  generate_system_message_summaries_stripped c5wState tplBioSum bob rfl
    "BIOTEXT | SUM" "BIOTEXT | " (by decide) (by decide) (by decide) (by decide)

/-- C5 (counterexample): a state and template where the full rendering fails
the injected predicate and the claim's bios-stripped rendering (bios blanked,
summaries kept) passes it, yet the function returns the bare third-attempt
rendering (`" | "`), not the bios-stripped one (`" | SUM"`): the code's
second attempt drops the summaries and keeps the bios, never the reverse. -/
theorem generate_system_message_not_bios_stripped :
    Template.render tplBioSum (gen_env c5State (get_bios_text c5State,
      c5State.rememberer_prompt_text (get_characters_excluding_player c5State)))
      = PyResult.ok "BIOTEXT | SUM" ∧
    c5State.is_prompt_too_long "BIOTEXT | SUM" TOKEN_LIMIT_PERCENT = true ∧
    bios_stripped_render c5State tplBioSum = PyResult.ok " | SUM" ∧
    c5State.is_prompt_too_long " | SUM" TOKEN_LIMIT_PERCENT = false ∧
    generate_system_message c5State tplBioSum = PyResult.ok " | " ∧
    (" | " : String) ≠ " | SUM" := by
  refine ⟨by decide, by decide, by decide, by decide, by decide, by decide⟩

end Mantella
